import Mathlib

/-!
Shallow embedding of the OTP service in src/index.js.

The durable state is three tables (otps, rate_limits, idempotency) from the
DDL in the source header.  The two HTTP handlers, POST /otp/request and
POST /otp/verify, are modelled as pure functions from a database state, a
clock value (milliseconds, as JavaScript Date.getTime), and the request
fields to a new database state together with an HTTP status code and a
structured response body.  The MySQL transaction in each handler is treated
as one atomic step; the reads the request handler performs before
beginTransaction are modelled as a separate read phase so that claims about
the locking discipline can be examined.  Randomness in generateOTP is made
explicit: the JavaScript expression Math.floor(100000 + Math.random() *
900000) is modelled by a parameter rand < 900000 standing for
Math.floor(Math.random() * 900000).
-/

/-- The ENUM of the status column of the otps table. -/
inductive OtpStatus where
  | active
  | used
  | expired
  | locked
deriving DecidableEq, Repr

/-- A row of the otps table. -/
structure OtpRow where
  id : Nat
  user_id : Nat
  purpose : String
  otp_code : String
  status : OtpStatus
  attempts : Nat
  created_at : Int
  expires_at : Int
deriving DecidableEq, Repr

/-- A row of the rate_limits table. -/
structure RateLimitRow where
  id : Nat
  user_id : Nat
  ip_address : String
  created_at : Int
deriving DecidableEq, Repr

/-- Structured response payloads of the two handlers.  The idempotency table
stores response_body as serialized text; since JSON.parse and JSON.stringify
are inverse on these payloads, the model stores the structured value. -/
inductive Body where
  | created (otp_id : Nat) (ttl : Nat)
      (remaining_user_requests : Int) (remaining_ip_requests : Int)
  | reasonOnly (reason : String)
  | rateLimited (reason : String) (cooldown_seconds_remaining : Int)
  | wrongCode (reason : String) (attempts_remaining : Nat)
  | message (text : String)
deriving DecidableEq, Repr

/-- A row of the idempotency table; idempotency_key is the primary key. -/
structure IdempotencyRow where
  idempotency_key : String
  response_status_code : Nat
  response_body : Body
  created_at : Int
deriving DecidableEq, Repr

/-- The whole durable state, plus the AUTO_INCREMENT counters. -/
structure DB where
  otps : List OtpRow
  rate_limits : List RateLimitRow
  idempotency : List IdempotencyRow
  next_otp_id : Nat
  next_rate_id : Nat
deriving DecidableEq, Repr

/-- Fifteen minutes in milliseconds: the rolling rate-limit window. -/
def fifteenMinutesMs : Int := 15 * 60 * 1000

/-- Ten minutes in milliseconds: the idempotency freshness window. -/
def tenMinutesMs : Int := 10 * 60 * 1000

/-- Five minutes in milliseconds: the OTP time to live. -/
def fiveMinutesMs : Int := 5 * 60 * 1000

/-- Ceiling division Math.ceil (a / b) on integers, for b > 0: JavaScript number division
followed by Math.ceil equals the negated floor division of the negation. -/
def ceilDivInt (a b : Int) : Int := -(Int.fdiv (-a) b)

/-- getRemainingCooldown from src/index.js: given the clock and the
created_at of the earliest request in the window, the remaining cooldown in
seconds, clamped at zero and rounded up. -/
def getRemainingCooldown (now earliest : Int) : Int :=
  max 0 (ceilDivInt (fifteenMinutesMs - (now - earliest)) 1000)

/-- generateOTP from src/index.js with the randomness made explicit:
rand stands for Math.floor(Math.random() * 900000), a natural below 900000,
and the code is the decimal string of 100000 + rand. -/
def generateOTP (rand : Nat) : String := toString (100000 + rand)

/-- The SELECT on rate_limits by user_id over the 15-minute window
(created_at >= NOW() - INTERVAL 15 MINUTE). -/
def userWindowRows (db : DB) (now : Int) (u : Nat) : List RateLimitRow :=
  db.rate_limits.filter
    (fun r => r.user_id == u && decide (now - fifteenMinutesMs ≤ r.created_at))

/-- The SELECT on rate_limits by ip_address over the 15-minute window. -/
def ipWindowRows (db : DB) (now : Int) (ip : String) : List RateLimitRow :=
  db.rate_limits.filter
    (fun r => r.ip_address == ip && decide (now - fifteenMinutesMs ≤ r.created_at))

/-- The created_at of row\[0\] after ORDER BY created_at ASC: the minimum
created_at of the list (0 for an empty list, which no caller reaches). -/
def earliestCreatedAt : List RateLimitRow → Int
  | [] => 0
  | r :: rs => rs.foldl (fun acc x => min acc x.created_at) r.created_at

/-- The SELECT on the idempotency table by key. -/
def findIdem (db : DB) (key : String) : Option IdempotencyRow :=
  db.idempotency.find? (fun e => e.idempotency_key == key)

/-- INSERT INTO idempotency: fails (none) when the primary key is taken. -/
def insertIdem (db : DB) (now : Int) (key : String) (status : Nat)
    (body : Body) : Option DB :=
  if db.idempotency.any (fun e => e.idempotency_key == key) then none
  else some { db with
    idempotency := db.idempotency ++ [⟨key, status, body, now⟩] }

/-- The predicate of the FOR UPDATE lookup for an active OTP of a pair. -/
def activePred (u : Nat) (p : String) (r : OtpRow) : Bool :=
  r.user_id == u && r.purpose == p && r.status == OtpStatus.active

/-- UPDATE otps SET ... WHERE id = i, as a map over the table. -/
def updateOtps (otps : List OtpRow) (i : Nat) (f : OtpRow → OtpRow) :
    List OtpRow :=
  otps.map (fun r => if r.id == i then f r else r)

/-- Outcome of the reads POST /otp/request performs before its transaction:
either the request is rejected by validation, or a fresh idempotency entry is
replayed, or the handler proceeds carrying the two window row sets it read. -/
inductive ReadOutcome where
  | invalid
  | replay (status : Nat) (body : Body)
  | proceed (userRows ipRows : List RateLimitRow)
deriving DecidableEq, Repr

/-- The part of POST /otp/request before beginTransaction: validation, the
idempotency lookup (a fresh entry, younger than 10 minutes, replays), and the
two rolling-window SELECTs.  None of these writes; none of these locks. -/
def requestReadPhase (db : DB) (now : Int) (u : Nat) (p ip key : String) :
    ReadOutcome :=
  if u == 0 || p == "" || key == "" then ReadOutcome.invalid
  else
    match findIdem db key with
    | some e =>
        if now - e.created_at < tenMinutesMs then
          ReadOutcome.replay e.response_status_code e.response_body
        else ReadOutcome.proceed (userWindowRows db now u) (ipWindowRows db now ip)
    | none => ReadOutcome.proceed (userWindowRows db now u) (ipWindowRows db now ip)

/-- The rest of POST /otp/request, given the window rows read earlier: the
rate-limit branches, the transaction (active-OTP check FOR UPDATE, OTP insert,
rate-event insert, commit), and the idempotency-cache insert that follows; a
failing cache insert is caught and answered with status 500. -/
def requestWritePhase (db : DB) (now : Int) (u : Nat) (p ip key : String)
    (rand : Nat) (userRows ipRows : List RateLimitRow) : DB × Nat × Body :=
  if 3 ≤ userRows.length then
    let body := Body.rateLimited "user_rate_limit_exceeded"
      (getRemainingCooldown now (earliestCreatedAt userRows))
    match insertIdem db now key 429 body with
    | some db2 => (db2, 429, body)
    | none => (db, 500, Body.reasonOnly "Internal Server Error")
  else if 8 ≤ ipRows.length then
    let body := Body.rateLimited "ip_rate_limit_exceeded"
      (getRemainingCooldown now (earliestCreatedAt ipRows))
    match insertIdem db now key 429 body with
    | some db2 => (db2, 429, body)
    | none => (db, 500, Body.reasonOnly "Internal Server Error")
  else if db.otps.any (activePred u p) then
    let body := Body.reasonOnly "An active OTP already exists."
    match insertIdem db now key 409 body with
    | some db2 => (db2, 409, body)
    | none => (db, 500, Body.reasonOnly "Internal Server Error")
  else
    let row : OtpRow :=
      ⟨db.next_otp_id, u, p, generateOTP rand, OtpStatus.active, 0, now,
        now + fiveMinutesMs⟩
    let ev : RateLimitRow := ⟨db.next_rate_id, u, ip, now⟩
    let db2 : DB :=
      { db with
        otps := db.otps ++ [row],
        rate_limits := db.rate_limits ++ [ev],
        next_otp_id := db.next_otp_id + 1,
        next_rate_id := db.next_rate_id + 1 }
    let body := Body.created db.next_otp_id 300
      (2 - (userRows.length : Int)) (7 - (ipRows.length : Int))
    match insertIdem db2 now key 201 body with
    | some db3 => (db3, 201, body)
    | none => (db2, 500, Body.reasonOnly "Internal Server Error")

/-- POST /otp/request of src/index.js, written out in source order:
validation, idempotency lookup with 10-minute freshness replay, the two
window SELECTs, the rate-limit branches, the transaction with the FOR UPDATE
active-OTP check and the two inserts, and the idempotency-cache insert. -/
def requestOtp (db : DB) (now : Int) (u : Nat) (p ip key : String)
    (rand : Nat) : DB × Nat × Body :=
  if u == 0 || p == "" || key == "" then
    (db, 400, Body.reasonOnly "user_id, purpose, and Idempotency-Key are required.")
  else
    match findIdem db key with
    | some e =>
        if now - e.created_at < tenMinutesMs then
          (db, e.response_status_code, e.response_body)
        else
          requestWritePhase db now u p ip key rand
            (userWindowRows db now u) (ipWindowRows db now ip)
    | none =>
        requestWritePhase db now u p ip key rand
          (userWindowRows db now u) (ipWindowRows db now ip)

/-- POST /otp/verify of src/index.js: validation, the FOR UPDATE lookup of
the rows for (user_id, purpose) taking row\[0\], the state check, the expiry
check (strict comparison expires_at < now), the code check with attempt
bookkeeping and lockout at 3, and the transition to used on success. -/
def verifyOtp (db : DB) (now : Int) (u : Nat) (p code : String) :
    DB × Nat × Body :=
  if u == 0 || p == "" || code == "" then
    (db, 400, Body.reasonOnly "user_id, purpose, and otp_code are required.")
  else
    match (db.otps.filter (fun r => r.user_id == u && r.purpose == p)).head? with
    | none => (db, 410, Body.reasonOnly "code_expired")
    | some otp =>
        if otp.status != OtpStatus.active then
          (db, 410, Body.reasonOnly "code_used")
        else if otp.expires_at < now then
          let otps2 := updateOtps db.otps otp.id
            (fun r => { r with status := OtpStatus.expired })
          ({ db with otps := otps2 }, 410, Body.reasonOnly "code_expired")
        else if otp.otp_code != code then
          let newAttempts := otp.attempts + 1
          if 3 ≤ newAttempts then
            let otps2 := updateOtps db.otps otp.id
              (fun r => { r with attempts := newAttempts,
                                 status := OtpStatus.locked })
            ({ db with otps := otps2 }, 401, Body.reasonOnly "attempts_exceeded")
          else
            let otps2 := updateOtps db.otps otp.id
              (fun r => { r with attempts := newAttempts })
            ({ db with otps := otps2 }, 401,
              Body.wrongCode "wrong_code" (3 - newAttempts))
        else
          let otps2 := updateOtps db.otps otp.id
            (fun r => { r with status := OtpStatus.used })
          ({ db with otps := otps2 }, 200,
            Body.message "OTP verified successfully.")

/-- Number of active OTP rows for a pair. -/
def activeCount (db : DB) (u : Nat) (p : String) : Nat :=
  db.otps.countP (activePred u p)

/-- The single-active-OTP invariant: at most one active row per pair. -/
def atMostOneActive (db : DB) : Prop :=
  ∀ u p, activeCount db u p ≤ 1

/-- The empty database, as created by the DDL. -/
def emptyDB : DB := ⟨[], [], [], 1, 1⟩

/-- A freshly issued OTP row for user 1, purpose login, code 123456,
created at time 0 and expiring at time 300000. -/
def sampleRow : OtpRow :=
  ⟨1, 1, "login", "123456", OtpStatus.active, 0, 0, 300000⟩

/-- A database holding exactly the one active sample row. -/
def sampleDB : DB := ⟨[sampleRow], [], [], 2, 1⟩

/-- A database in which user 1 already made two requests inside the
15-minute window ending at time 100000, from two other addresses. -/
def raceDB : DB :=
  ⟨[], [⟨1, 1, "9.9.9.9", 0⟩, ⟨2, 1, "9.9.9.8", 1⟩], [], 1, 3⟩

/-- A database in which user 1 already made three requests inside the
15-minute window ending at time 100000. -/
def limitDB : DB :=
  ⟨[], [⟨1, 1, "9.9.9.9", 0⟩, ⟨2, 1, "9.9.9.8", 1⟩, ⟨3, 1, "9.9.9.7", 2⟩],
    [], 1, 4⟩

/-- A database whose idempotency table holds one entry for key kx written at
time 0, so the entry is stale from time 600000 on. -/
def staleDB : DB :=
  ⟨[], [], [⟨"kx", 201, Body.created 9 300 2 7, 0⟩], 1, 1⟩

/-- A database whose idempotency table holds one entry for key kf written at
time 0, fresh before time 600000. -/
def freshDB : DB :=
  ⟨[], [], [⟨"kf", 429, Body.rateLimited "user_rate_limit_exceeded" 17, 0⟩],
    1, 1⟩

/-! ## List-level helper lemmas -/

theorem countP_map_le (g : OtpRow → OtpRow) (pred : OtpRow → Bool)
    (h : ∀ r, pred (g r) = true → pred r = true) (l : List OtpRow) :
    (l.map g).countP pred ≤ l.countP pred := by
  induction l with
  | nil => simp
  | cons a l ih =>
      simp only [List.map_cons, List.countP_cons]
      by_cases hga : pred (g a) = true
      · rw [if_pos hga, if_pos (h a hga)]; omega
      · rw [if_neg hga]; omega

theorem any_eq_false_of_find?_none {α : Type} {p : α → Bool} {l : List α}
    (h : l.find? p = none) : l.any p = false :=
  List.any_eq_false.mpr (List.find?_eq_none.mp h)

theorem countP_eq_zero_of_any_false {α : Type} {p : α → Bool} {l : List α}
    (h : l.any p = false) : l.countP p = 0 :=
  List.countP_eq_zero.mpr (List.any_eq_false.mp h)

theorem find?_append_of_none {α : Type} {p : α → Bool} {l₁ l₂ : List α}
    (h : l₁.find? p = none) : (l₁ ++ l₂).find? p = l₂.find? p := by
  induction l₁ with
  | nil => rfl
  | cons a l ih =>
      cases hpa : p a with
      | true => rw [List.find?_cons_of_pos _ hpa] at h; cases h
      | false =>
          rw [List.find?_cons_of_neg _ (by simp [hpa])] at h
          rw [List.cons_append, List.find?_cons_of_neg _ (by simp [hpa])]
          exact ih h

theorem filter_map_comm (g : OtpRow → OtpRow) (q : OtpRow → Bool)
    (h : ∀ r, q (g r) = q r) (l : List OtpRow) :
    (l.map g).filter q = (l.filter q).map g := by
  induction l with
  | nil => rfl
  | cons a l ih =>
      simp only [List.map_cons, List.filter_cons, h a]
      cases hqa : q a <;> simp [hqa, ih]

/-! ## Helper lemmas on the embedded operations -/

theorem insertIdem_eq_of_some {db db2 : DB} {now : Int} {key : String}
    {s : Nat} {b : Body} (h : insertIdem db now key s b = some db2) :
    db2 = { db with idempotency := db.idempotency ++ [⟨key, s, b, now⟩] } := by
  unfold insertIdem at h
  split at h
  · cases h
  · exact (Option.some.inj h).symm

theorem insertIdem_of_findIdem_none {db : DB} {now : Int} {key : String}
    {s : Nat} {b : Body} (h : findIdem db key = none) :
    insertIdem db now key s b =
      some { db with idempotency := db.idempotency ++ [⟨key, s, b, now⟩] } := by
  have hany : db.idempotency.any (fun e => e.idempotency_key == key) = false :=
    any_eq_false_of_find?_none h
  unfold insertIdem
  rw [hany]
  rfl

theorem insertIdem_of_findIdem_some {db : DB} {now : Int} {key : String}
    {s : Nat} {b : Body} {e : IdempotencyRow} (h : findIdem db key = some e) :
    insertIdem db now key s b = none := by
  have h2 : db.idempotency.find? (fun x => x.idempotency_key == key)
      = some e := h
  have hpe : (e.idempotency_key == key) = true :=
    @List.find?_some _ (fun x => x.idempotency_key == key) e db.idempotency h2
  have hme : e ∈ db.idempotency := List.mem_of_find?_eq_some h2
  have hany : db.idempotency.any (fun x => x.idempotency_key == key) = true :=
    List.any_eq_true.mpr ⟨e, hme, hpe⟩
  unfold insertIdem
  rw [hany]
  rfl

theorem foldl_min_le_init (l : List RateLimitRow) :
    ∀ acc : Int, l.foldl (fun a x => min a x.created_at) acc ≤ acc := by
  induction l with
  | nil => intro acc; simp
  | cons a l ih =>
      intro acc
      simp only [List.foldl_cons]
      exact le_trans (ih _) (min_le_left _ _)

theorem foldl_min_le_mem (l : List RateLimitRow) :
    ∀ acc : Int, ∀ r ∈ l,
      l.foldl (fun a x => min a x.created_at) acc ≤ r.created_at := by
  induction l with
  | nil => intro acc r hr; cases hr
  | cons a l ih =>
      intro acc r hr
      simp only [List.foldl_cons]
      rcases List.mem_cons.mp hr with h | h
      · subst h; exact le_trans (foldl_min_le_init l _) (min_le_right _ _)
      · exact ih _ r h

theorem foldl_min_attained (l : List RateLimitRow) :
    ∀ acc : Int, l.foldl (fun a x => min a x.created_at) acc = acc ∨
      ∃ r ∈ l, l.foldl (fun a x => min a x.created_at) acc = r.created_at := by
  induction l with
  | nil => intro acc; left; rfl
  | cons a l ih =>
      intro acc
      simp only [List.foldl_cons]
      rcases ih (min acc a.created_at) with h | ⟨r, hr, he⟩
      · rw [h]
        rcases le_total acc a.created_at with hle | hle
        · left; exact min_eq_left hle
        · right; exact ⟨a, List.mem_cons_self _ _, min_eq_right hle⟩
      · right; exact ⟨r, List.mem_cons_of_mem _ hr, he⟩

theorem earliestCreatedAt_le (l : List RateLimitRow) :
    ∀ r ∈ l, earliestCreatedAt l ≤ r.created_at := by
  intro r hr
  cases l with
  | nil => cases hr
  | cons a l =>
      unfold earliestCreatedAt
      rcases List.mem_cons.mp hr with h | h
      · subst h; exact foldl_min_le_init l _
      · exact foldl_min_le_mem l _ r h

theorem earliestCreatedAt_mem (l : List RateLimitRow) (hne : l ≠ []) :
    ∃ r ∈ l, r.created_at = earliestCreatedAt l := by
  cases l with
  | nil => exact absurd rfl hne
  | cons a l =>
      unfold earliestCreatedAt
      rcases foldl_min_attained l a.created_at with h | ⟨r, hr, he⟩
      · exact ⟨a, List.mem_cons_self _ _, h.symm⟩
      · exact ⟨r, List.mem_cons_of_mem _ hr, he.symm⟩

theorem verifyOtp_not_active {db : DB} {now : Int} {u : Nat} {p code : String}
    {otp : OtpRow}
    (hval : (u == 0 || p == "" || code == "") = false)
    (hhead : (db.otps.filter
      (fun r => r.user_id == u && r.purpose == p)).head? = some otp)
    (hstat : otp.status ≠ OtpStatus.active) :
    verifyOtp db now u p code = (db, 410, Body.reasonOnly "code_used") := by
  unfold verifyOtp
  rw [hval, hhead]
  simp [hstat]

theorem verifyOtp_expired_transition {db : DB} {now : Int} {u : Nat}
    {p code : String} {otp : OtpRow}
    (hval : (u == 0 || p == "" || code == "") = false)
    (hhead : (db.otps.filter
      (fun r => r.user_id == u && r.purpose == p)).head? = some otp)
    (hstat : otp.status = OtpStatus.active)
    (hexp : otp.expires_at < now) :
    verifyOtp db now u p code =
      ({ db with otps := updateOtps db.otps otp.id (fun r => { r with status := OtpStatus.expired }) },
        410, Body.reasonOnly "code_expired") := by
  unfold verifyOtp
  rw [hval, hhead]
  simp [hstat, hexp]

theorem verifyOtp_wrong_locked {db : DB} {now : Int} {u : Nat}
    {p code : String} {otp : OtpRow}
    (hval : (u == 0 || p == "" || code == "") = false)
    (hhead : (db.otps.filter
      (fun r => r.user_id == u && r.purpose == p)).head? = some otp)
    (hstat : otp.status = OtpStatus.active)
    (hexp : ¬ otp.expires_at < now)
    (hcode : otp.otp_code ≠ code)
    (h3 : 3 ≤ otp.attempts + 1) :
    verifyOtp db now u p code =
      ({ db with otps := updateOtps db.otps otp.id (fun r => { r with attempts := otp.attempts + 1, status := OtpStatus.locked }) },
        401, Body.reasonOnly "attempts_exceeded") := by
  unfold verifyOtp
  rw [hval, hhead]
  simp [hstat, hexp, hcode, h3]

theorem verifyOtp_wrong_count {db : DB} {now : Int} {u : Nat}
    {p code : String} {otp : OtpRow}
    (hval : (u == 0 || p == "" || code == "") = false)
    (hhead : (db.otps.filter
      (fun r => r.user_id == u && r.purpose == p)).head? = some otp)
    (hstat : otp.status = OtpStatus.active)
    (hexp : ¬ otp.expires_at < now)
    (hcode : otp.otp_code ≠ code)
    (h3 : otp.attempts + 1 < 3) :
    verifyOtp db now u p code =
      ({ db with otps := updateOtps db.otps otp.id (fun r => { r with attempts := otp.attempts + 1 }) },
        401, Body.wrongCode "wrong_code" (3 - (otp.attempts + 1))) := by
  have h3n : ¬ 3 ≤ otp.attempts + 1 := by omega
  unfold verifyOtp
  rw [hval, hhead]
  simp [hstat, hexp, hcode, h3n]

theorem verifyOtp_success {db : DB} {now : Int} {u : Nat}
    {p code : String} {otp : OtpRow}
    (hval : (u == 0 || p == "" || code == "") = false)
    (hhead : (db.otps.filter
      (fun r => r.user_id == u && r.purpose == p)).head? = some otp)
    (hstat : otp.status = OtpStatus.active)
    (hexp : ¬ otp.expires_at < now)
    (hcode : otp.otp_code = code) :
    verifyOtp db now u p code =
      ({ db with otps := updateOtps db.otps otp.id (fun r => { r with status := OtpStatus.used }) },
        200, Body.message "OTP verified successfully.") := by
  unfold verifyOtp
  rw [hval, hhead]
  simp [hstat, hexp, hcode]

theorem requestOtp_replay_eq {db : DB} {now : Int} {u : Nat}
    {p ip key : String} {rand : Nat} {e : IdempotencyRow}
    (hval : (u == 0 || p == "" || key == "") = false)
    (hfind : findIdem db key = some e)
    (hfresh : now - e.created_at < tenMinutesMs) :
    requestOtp db now u p ip key rand =
      (db, e.response_status_code, e.response_body) := by
  unfold requestOtp
  rw [hval, hfind]
  simp [hfresh]

theorem requestOtp_of_findIdem_none {db : DB} {now : Int} {u : Nat}
    {p ip key : String} {rand : Nat}
    (hval : (u == 0 || p == "" || key == "") = false)
    (hfind : findIdem db key = none) :
    requestOtp db now u p ip key rand =
      requestWritePhase db now u p ip key rand
        (userWindowRows db now u) (ipWindowRows db now ip) := by
  unfold requestOtp
  rw [hval, hfind]
  rfl

theorem requestOtp_of_stale {db : DB} {now : Int} {u : Nat}
    {p ip key : String} {rand : Nat} {e : IdempotencyRow}
    (hval : (u == 0 || p == "" || key == "") = false)
    (hfind : findIdem db key = some e)
    (hstale : ¬ now - e.created_at < tenMinutesMs) :
    requestOtp db now u p ip key rand =
      requestWritePhase db now u p ip key rand
        (userWindowRows db now u) (ipWindowRows db now ip) := by
  unfold requestOtp
  rw [hval, hfind]
  simp [hstale]

theorem requestWritePhase_user_limit {db : DB} {now : Int} {u : Nat}
    {p ip key : String} {rand : Nat} {userRows ipRows : List RateLimitRow}
    (hfind : findIdem db key = none)
    (h3 : 3 ≤ userRows.length) :
    requestWritePhase db now u p ip key rand userRows ipRows =
      ({ db with idempotency := db.idempotency ++
          [⟨key, 429, Body.rateLimited "user_rate_limit_exceeded"
            (getRemainingCooldown now (earliestCreatedAt userRows)), now⟩] },
        429, Body.rateLimited "user_rate_limit_exceeded"
          (getRemainingCooldown now (earliestCreatedAt userRows))) := by
  unfold requestWritePhase
  rw [if_pos h3]
  simp [insertIdem_of_findIdem_none hfind]

theorem requestWritePhase_ip_limit {db : DB} {now : Int} {u : Nat}
    {p ip key : String} {rand : Nat} {userRows ipRows : List RateLimitRow}
    (hfind : findIdem db key = none)
    (h3 : ¬ 3 ≤ userRows.length)
    (h8 : 8 ≤ ipRows.length) :
    requestWritePhase db now u p ip key rand userRows ipRows =
      ({ db with idempotency := db.idempotency ++
          [⟨key, 429, Body.rateLimited "ip_rate_limit_exceeded"
            (getRemainingCooldown now (earliestCreatedAt ipRows)), now⟩] },
        429, Body.rateLimited "ip_rate_limit_exceeded"
          (getRemainingCooldown now (earliestCreatedAt ipRows))) := by
  unfold requestWritePhase
  rw [if_neg h3, if_pos h8]
  simp [insertIdem_of_findIdem_none hfind]

theorem requestWritePhase_conflict {db : DB} {now : Int} {u : Nat}
    {p ip key : String} {rand : Nat} {userRows ipRows : List RateLimitRow}
    (hfind : findIdem db key = none)
    (h3 : ¬ 3 ≤ userRows.length)
    (h8 : ¬ 8 ≤ ipRows.length)
    (hact : db.otps.any (activePred u p) = true) :
    requestWritePhase db now u p ip key rand userRows ipRows =
      ({ db with idempotency := db.idempotency ++
          [⟨key, 409, Body.reasonOnly "An active OTP already exists.", now⟩] },
        409, Body.reasonOnly "An active OTP already exists.") := by
  unfold requestWritePhase
  rw [if_neg h3, if_neg h8]
  simp only [hact, if_true]
  simp [insertIdem_of_findIdem_none hfind]

theorem requestWritePhase_success {db : DB} {now : Int} {u : Nat}
    {p ip key : String} {rand : Nat} {userRows ipRows : List RateLimitRow}
    (hfind : findIdem db key = none)
    (h3 : ¬ 3 ≤ userRows.length)
    (h8 : ¬ 8 ≤ ipRows.length)
    (hact : db.otps.any (activePred u p) = false) :
    requestWritePhase db now u p ip key rand userRows ipRows =
      ({ db with
          otps := db.otps ++ [⟨db.next_otp_id, u, p, generateOTP rand,
            OtpStatus.active, 0, now, now + fiveMinutesMs⟩],
          rate_limits := db.rate_limits ++ [⟨db.next_rate_id, u, ip, now⟩],
          idempotency := db.idempotency ++ [⟨key, 201,
            Body.created db.next_otp_id 300 (2 - (userRows.length : Int))
              (7 - (ipRows.length : Int)), now⟩],
          next_otp_id := db.next_otp_id + 1,
          next_rate_id := db.next_rate_id + 1 },
        201, Body.created db.next_otp_id 300 (2 - (userRows.length : Int))
          (7 - (ipRows.length : Int))) := by
  unfold requestWritePhase
  rw [if_neg h3, if_neg h8]
  simp only [hact, Bool.false_eq_true, if_false]
  unfold insertIdem
  simp [any_eq_false_of_find?_none hfind]

theorem countP_updateOtps_le (l : List OtpRow) (i : Nat) (f : OtpRow → OtpRow)
    (pred : OtpRow → Bool) (h : ∀ r, pred (f r) = true → pred r = true) :
    (updateOtps l i f).countP pred ≤ l.countP pred := by
  unfold updateOtps
  apply countP_map_le
  intro r hr
  by_cases hid : (r.id == i) = true
  · rw [if_pos hid] at hr; exact h r hr
  · rw [if_neg hid] at hr; exact hr

theorem activeCount_verifyOtp_le (db : DB) (now : Int) (u u2 : Nat)
    (p code p2 : String) :
    activeCount (verifyOtp db now u p code).1 u2 p2 ≤ activeCount db u2 p2 := by
  unfold verifyOtp activeCount
  dsimp only
  split
  · exact Nat.le_refl _
  · split
    · exact Nat.le_refl _
    · split
      · exact Nat.le_refl _
      · split
        · refine countP_updateOtps_le _ _ _ _ ?_
          intro r hr
          simp [activePred] at hr
        · split
          · split
            · refine countP_updateOtps_le _ _ _ _ ?_
              intro r hr
              simp [activePred] at hr
            · refine countP_updateOtps_le _ _ _ _ ?_
              intro r hr
              simpa [activePred] using hr
          · refine countP_updateOtps_le _ _ _ _ ?_
            intro r hr
            simp [activePred] at hr

theorem atMostOneActive_verifyOtp (db : DB) (now : Int) (u : Nat)
    (p code : String) (h : atMostOneActive db) :
    atMostOneActive (verifyOtp db now u p code).1 :=
  fun u2 p2 => le_trans (activeCount_verifyOtp_le db now u u2 p code p2) (h u2 p2)

theorem atMostOneActive_requestWritePhase (db : DB) (now : Int) (u : Nat)
    (p ip key : String) (rand : Nat) (userRows ipRows : List RateLimitRow)
    (h : atMostOneActive db) :
    atMostOneActive
      (requestWritePhase db now u p ip key rand userRows ipRows).1 := by
  unfold requestWritePhase
  dsimp only
  split
  · split
    next db2 heq =>
      intro u2 p2
      rw [insertIdem_eq_of_some heq]
      exact h u2 p2
    next => exact h
  · split
    · split
      next db2 heq =>
        intro u2 p2
        rw [insertIdem_eq_of_some heq]
        exact h u2 p2
      next => exact h
    · split
      · split
        next db2 heq =>
          intro u2 p2
          rw [insertIdem_eq_of_some heq]
          exact h u2 p2
        next => exact h
      · next hnact =>
          have hact : db.otps.any (activePred u p) = false :=
            eq_false_of_ne_true hnact
          have key1 : ∀ u2 p2, List.countP (activePred u2 p2)
              (db.otps ++ [⟨db.next_otp_id, u, p, generateOTP rand,
                OtpStatus.active, 0, now, now + fiveMinutesMs⟩]) ≤ 1 := by
            intro u2 p2
            rw [List.countP_append]
            by_cases hup : u2 = u ∧ p2 = p
            · obtain ⟨hu2, hp2⟩ := hup
              subst hu2; subst hp2
              have h0 : db.otps.countP (activePred u2 p2) = 0 :=
                countP_eq_zero_of_any_false hact
              rw [h0]
              simpa using List.countP_le_length (activePred u2 p2)
            · have hrow : activePred u2 p2
                  ⟨db.next_otp_id, u, p, generateOTP rand,
                    OtpStatus.active, 0, now, now + fiveMinutesMs⟩ = false := by
                by_cases hu2 : u = u2
                · have hp2 : ¬ p = p2 := by
                    intro hp2
                    exact hup ⟨hu2.symm, hp2.symm⟩
                  simp [activePred, hp2]
                · simp [activePred, hu2]
              simp only [List.countP_cons, List.countP_nil, hrow]
              simpa using h u2 p2
          split
          next db2 heq =>
            intro u2 p2
            rw [insertIdem_eq_of_some heq]
            exact key1 u2 p2
          next =>
            intro u2 p2
            exact key1 u2 p2

theorem atMostOneActive_requestOtp (db : DB) (now : Int) (u : Nat)
    (p ip key : String) (rand : Nat) (h : atMostOneActive db) :
    atMostOneActive (requestOtp db now u p ip key rand).1 := by
  unfold requestOtp
  split
  · exact h
  · split
    · split
      · exact h
      · exact atMostOneActive_requestWritePhase _ _ _ _ _ _ _ _ _ h
    · exact atMostOneActive_requestWritePhase _ _ _ _ _ _ _ _ _ h

theorem filter_head_after_update (l : List OtpRow) (u : Nat) (p : String)
    (i : Nat) (f : OtpRow → OtpRow)
    (hf : ∀ r, ((f r).user_id == u && (f r).purpose == p)
      = (r.user_id == u && r.purpose == p))
    {otp : OtpRow}
    (hhead : (l.filter (fun r => r.user_id == u && r.purpose == p)).head?
      = some otp) :
    ((updateOtps l i f).filter
        (fun r => r.user_id == u && r.purpose == p)).head?
      = some (if otp.id == i then f otp else otp) := by
  unfold updateOtps
  rw [filter_map_comm _ _ ?hq l]
  case hq =>
    intro r
    by_cases hid : (r.id == i) = true
    · rw [if_pos hid]; exact hf r
    · rw [if_neg hid]
  rw [List.head?_map, hhead]
  rfl

/-- Claim C5: an issuance request whose idempotency key matches a cached
entry younger than 10 minutes returns exactly the cached status code and
payload, and the database is returned unchanged: no OTP-store, rate-limit
or cache write happens, so a retry within the freshness window replays the
first outcome and only the first call mutates state. -/
theorem claim5_fresh_key_replays (db : DB) (now : Int) (u : Nat)
    (p ip key : String) (rand : Nat) (e : IdempotencyRow)
    (hval : (u == 0 || p == "" || key == "") = false)
    (hfind : findIdem db key = some e)
    (hfresh : now - e.created_at < tenMinutesMs) :
    requestOtp db now u p ip key rand =
      (db, e.response_status_code, e.response_body) :=
  requestOtp_replay_eq hval hfind hfresh

/-- Witness for C5 at a concrete state: freshDB caches a 429 outcome under
key kf at time 0; a request at time 1000 replays it and leaves freshDB
unchanged. -/
theorem claim5_fresh_key_replays_witness :
    requestOtp freshDB 1000 1 "login" "1.1.1.1" "kf" 0 =
      (freshDB, 429, Body.rateLimited "user_rate_limit_exceeded" 17) :=
  claim5_fresh_key_replays freshDB 1000 1 "login" "1.1.1.1" "kf" 0
    ⟨"kf", 429, Body.rateLimited "user_rate_limit_exceeded" 17, 0⟩
    (by decide) (by decide) (by decide)

/-- Counterexample to C3 as stated: sampleRow is Active and its expires_at
equals the clock value 300000, so now is greater than or equal to
expires_at, yet verifying the correct code returns 200 and marks the record
Used, not 410 code_expired with the record Expired.  The code compares with
strict less-than (expires_at < now), so the boundary instant still
verifies. -/
theorem claim3_counterexample :
    sampleRow.status = OtpStatus.active ∧
    sampleRow.expires_at ≤ (300000 : Int) ∧
    (verifyOtp sampleDB 300000 1 "login" "123456").2.1 = 200 ∧
    ¬ ((verifyOtp sampleDB 300000 1 "login" "123456").2.1 = 410) ∧
    (verifyOtp sampleDB 300000 1 "login" "123456").1.otps =
      [{ sampleRow with status := OtpStatus.used }] ∧
    (verifyOtp sampleDB 300000 1 "login" "123456").1.otps.countP
      (fun r => r.status == OtpStatus.expired) = 0 := by
  decide

/-- Claim C3 (amended): for every Active record with now STRICTLY greater
than expires_at (the code tests expires_at < now, so the boundary instant
now = expires_at still verifies), verifyOtp with any submitted code
transitions the record to Expired, never to Used, and returns status 410
with reason code_expired. -/
theorem claim3_expiry_strict (db : DB) (now : Int) (u : Nat)
    (p code : String) (otp : OtpRow)
    (hval : (u == 0 || p == "" || code == "") = false)
    (hhead : (db.otps.filter
      (fun r => r.user_id == u && r.purpose == p)).head? = some otp)
    (hstat : otp.status = OtpStatus.active)
    (hexp : otp.expires_at < now) :
    verifyOtp db now u p code =
      ({ db with otps := updateOtps db.otps otp.id (fun r => { r with status := OtpStatus.expired }) },
        410, Body.reasonOnly "code_expired") :=
  verifyOtp_expired_transition hval hhead hstat hexp

/-- Witness for the amended C3: one millisecond after expiry, the correct
code is rejected with 410 code_expired and the sample record turns
Expired. -/
theorem claim3_expiry_strict_witness :
    verifyOtp sampleDB 300001 1 "login" "123456" =
      ({ sampleDB with otps := updateOtps sampleDB.otps sampleRow.id (fun r => { r with status := OtpStatus.expired }) },
        410, Body.reasonOnly "code_expired") :=
  claim3_expiry_strict sampleDB 300001 1 "login" "123456" sampleRow
    (by decide) (by decide) (by decide) (by decide)

/-- Claim C2: for an Active, unexpired record and a mismatching code, the
attempt counter is incremented; when the new count reaches 3 the record is
Locked and the answer is 401 attempts_exceeded, otherwise the record stays
Active with the incremented count and the answer is 401 wrong_code with
attempts_remaining = 3 minus the incremented count.  Consequently three
wrong codes against the sample record answer attempts_remaining 2, then 1,
then attempts_exceeded, and the correct code afterwards answers 410
code_used. -/
theorem claim2_wrong_code_bookkeeping (db : DB) (now : Int) (u : Nat)
    (p code : String) (otp : OtpRow)
    (hval : (u == 0 || p == "" || code == "") = false)
    (hhead : (db.otps.filter
      (fun r => r.user_id == u && r.purpose == p)).head? = some otp)
    (hstat : otp.status = OtpStatus.active)
    (hexp : ¬ otp.expires_at < now)
    (hcode : otp.otp_code ≠ code) :
    (3 ≤ otp.attempts + 1 →
      verifyOtp db now u p code =
        ({ db with otps := updateOtps db.otps otp.id (fun r => { r with attempts := otp.attempts + 1, status := OtpStatus.locked }) },
          401, Body.reasonOnly "attempts_exceeded")) ∧
    (otp.attempts + 1 < 3 →
      verifyOtp db now u p code =
        ({ db with otps := updateOtps db.otps otp.id (fun r => { r with attempts := otp.attempts + 1 }) },
          401, Body.wrongCode "wrong_code" (3 - (otp.attempts + 1)))) ∧
    ((verifyOtp sampleDB 1000 1 "login" "000000").2
        = (401, Body.wrongCode "wrong_code" 2) ∧
      (verifyOtp (verifyOtp sampleDB 1000 1 "login" "000000").1
          1000 1 "login" "000000").2
        = (401, Body.wrongCode "wrong_code" 1) ∧
      (verifyOtp (verifyOtp (verifyOtp sampleDB 1000 1 "login" "000000").1
          1000 1 "login" "000000").1 1000 1 "login" "000000").2
        = (401, Body.reasonOnly "attempts_exceeded") ∧
      (verifyOtp (verifyOtp (verifyOtp (verifyOtp sampleDB
          1000 1 "login" "000000").1 1000 1 "login" "000000").1
          1000 1 "login" "000000").1 1000 1 "login" "123456").2
        = (410, Body.reasonOnly "code_used")) :=
  ⟨fun h3 => verifyOtp_wrong_locked hval hhead hstat hexp hcode h3,
   fun h3 => verifyOtp_wrong_count hval hhead hstat hexp hcode
     (by omega),
   by decide⟩

/-- Witness for C2: the first wrong attempt against the sample record
answers 401 wrong_code with two attempts remaining. -/
theorem claim2_wrong_code_bookkeeping_witness :
    (verifyOtp sampleDB 1000 1 "login" "000000").2
      = (401, Body.wrongCode "wrong_code" 2) := by
  have h := (claim2_wrong_code_bookkeeping sampleDB 1000 1 "login" "000000"
    sampleRow (by decide) (by decide) (by decide) (by decide)
    (by decide)).2.1 (by decide)
  rw [h]
  decide

/-- Claim C4: for an Active, unexpired record and the matching code,
verifyOtp marks the record Used and answers 200; running the same
verification again on the resulting state answers 410 code_used and changes
nothing, because the state check under the row lock sees the record is no
longer Active.  Hence no two verifications of one record both answer
200. -/
theorem claim4_verify_consume_once (db : DB) (now : Int) (u : Nat)
    (p code : String) (otp : OtpRow)
    (hval : (u == 0 || p == "" || code == "") = false)
    (hhead : (db.otps.filter
      (fun r => r.user_id == u && r.purpose == p)).head? = some otp)
    (hstat : otp.status = OtpStatus.active)
    (hexp : ¬ otp.expires_at < now)
    (hcode : otp.otp_code = code) :
    verifyOtp db now u p code =
      ({ db with otps := updateOtps db.otps otp.id (fun r => { r with status := OtpStatus.used }) },
        200, Body.message "OTP verified successfully.") ∧
    verifyOtp ({ db with otps := updateOtps db.otps otp.id (fun r => { r with status := OtpStatus.used }) })
        now u p code =
      (({ db with otps := updateOtps db.otps otp.id (fun r => { r with status := OtpStatus.used }) } : DB),
        410, Body.reasonOnly "code_used") := by
  refine ⟨verifyOtp_success hval hhead hstat hexp hcode, ?_⟩
  have hhead2 := filter_head_after_update db.otps u p otp.id
    (fun r => { r with status := OtpStatus.used }) (fun r => rfl) hhead
  rw [beq_self_eq_true, if_pos rfl] at hhead2
  exact verifyOtp_not_active hval hhead2 (by simp)

/-- Witness for C4: verifying the sample code twice yields 200 then 410
code_used. -/
theorem claim4_verify_consume_once_witness :
    (verifyOtp sampleDB 1000 1 "login" "123456").2.1 = 200 ∧
    (verifyOtp (verifyOtp sampleDB 1000 1 "login" "123456").1
      1000 1 "login" "123456").2 = (410, Body.reasonOnly "code_used") := by
  have h := claim4_verify_consume_once sampleDB 1000 1 "login" "123456"
    sampleRow (by decide) (by decide) (by decide) (by decide) (by decide)
  refine ⟨by rw [h.1], ?_⟩
  rw [h.1]
  exact congrArg Prod.snd h.2

/-- Claim C6: when a fresh issuance request is rejected because a rolling
window threshold is reached (identity count at least 3, or origin count at
least 8 while the identity count is below 3), the response is 429 and its
cooldown_seconds_remaining equals the window duration minus the elapsed time
since the earliest event in the window, divided by 1000 rounded up and
clamped at zero; in addition earliestCreatedAt really is the earliest
created_at among the window rows. -/
theorem claim6_rate_limit_cooldown (db : DB) (now : Int) (u : Nat)
    (p ip key : String) (rand : Nat)
    (hval : (u == 0 || p == "" || key == "") = false)
    (hfind : findIdem db key = none) :
    (3 ≤ (userWindowRows db now u).length →
      (requestOtp db now u p ip key rand).2 =
        (429, Body.rateLimited "user_rate_limit_exceeded"
          (max 0 (ceilDivInt
            (fifteenMinutesMs - (now - earliestCreatedAt (userWindowRows db now u)))
            1000)))) ∧
    ((userWindowRows db now u).length < 3 →
      8 ≤ (ipWindowRows db now ip).length →
      (requestOtp db now u p ip key rand).2 =
        (429, Body.rateLimited "ip_rate_limit_exceeded"
          (max 0 (ceilDivInt
            (fifteenMinutesMs - (now - earliestCreatedAt (ipWindowRows db now ip)))
            1000)))) ∧
    (∀ r ∈ userWindowRows db now u,
      earliestCreatedAt (userWindowRows db now u) ≤ r.created_at) ∧
    (userWindowRows db now u ≠ [] →
      ∃ r ∈ userWindowRows db now u,
        r.created_at = earliestCreatedAt (userWindowRows db now u)) := by
  refine ⟨?_, ?_, earliestCreatedAt_le _, earliestCreatedAt_mem _⟩
  · intro h3
    rw [requestOtp_of_findIdem_none hval hfind,
      requestWritePhase_user_limit hfind h3]
    rfl
  · intro h3 h8
    rw [requestOtp_of_findIdem_none hval hfind,
      requestWritePhase_ip_limit hfind (not_le.mpr h3) h8]
    rfl

/-- Witness for C6: in limitDB user 1 has three events in the window ending
at time 100000, the earliest at time 0, so the request is rejected with 429
and a cooldown of 800 seconds (900 seconds window minus 100 elapsed). -/
theorem claim6_rate_limit_cooldown_witness :
    (requestOtp limitDB 100000 1 "login" "1.1.1.1" "kz" 0).2 =
      (429, Body.rateLimited "user_rate_limit_exceeded" 800) := by
  have h := (claim6_rate_limit_cooldown limitDB 100000 1 "login" "1.1.1.1"
    "kz" 0 (by decide) (by decide)).1 (by decide)
  rw [h]
  decide

/-- Claim C7: a fresh issuance request that passes the rate limits and the
active-OTP check creates exactly one Active OTP row whose code is the
decimal string of 100000 + rand (a number in the range 100000 to 999999)
and whose expires_at is now plus five minutes, appends exactly one
rate-limit event for the identity and the origin address, caches and
returns 201 with payload otp_id, ttl 300, remaining_user_requests equal to
2 minus the prior identity window count and remaining_ip_requests equal to
7 minus the prior origin window count. -/
theorem claim7_success_path (db : DB) (now : Int) (u : Nat)
    (p ip key : String) (rand : Nat)
    (hval : (u == 0 || p == "" || key == "") = false)
    (hfind : findIdem db key = none)
    (h3 : (userWindowRows db now u).length < 3)
    (h8 : (ipWindowRows db now ip).length < 8)
    (hact : db.otps.any (activePred u p) = false)
    (hrand : rand < 900000) :
    requestOtp db now u p ip key rand =
      ({ db with
          otps := db.otps ++ [⟨db.next_otp_id, u, p, generateOTP rand,
            OtpStatus.active, 0, now, now + fiveMinutesMs⟩],
          rate_limits := db.rate_limits ++ [⟨db.next_rate_id, u, ip, now⟩],
          idempotency := db.idempotency ++ [⟨key, 201,
            Body.created db.next_otp_id 300
              (2 - ((userWindowRows db now u).length : Int))
              (7 - ((ipWindowRows db now ip).length : Int)), now⟩],
          next_otp_id := db.next_otp_id + 1,
          next_rate_id := db.next_rate_id + 1 },
        201, Body.created db.next_otp_id 300
          (2 - ((userWindowRows db now u).length : Int))
          (7 - ((ipWindowRows db now ip).length : Int))) ∧
    100000 ≤ 100000 + rand ∧ 100000 + rand ≤ 999999 ∧
    generateOTP rand = toString (100000 + rand) :=
  ⟨by
    rw [requestOtp_of_findIdem_none hval hfind]
    exact requestWritePhase_success hfind (not_le.mpr h3) (not_le.mpr h8) hact,
   by omega, by omega, rfl⟩

/-- Witness for C7: from the empty database, a request at time 0 with rand
23456 answers 201 with otp_id 1, ttl 300 and remaining counts 2 and 7, and
stores the code 123456 expiring at 300000. -/
theorem claim7_success_path_witness :
    requestOtp emptyDB 0 1 "login" "1.1.1.1" "ka" 23456 =
      ({ emptyDB with
          otps := [⟨1, 1, "login", "123456", OtpStatus.active, 0, 0, 300000⟩],
          rate_limits := [⟨1, 1, "1.1.1.1", 0⟩],
          idempotency := [⟨"ka", 201, Body.created 1 300 2 7, 0⟩],
          next_otp_id := 2,
          next_rate_id := 2 },
        201, Body.created 1 300 2 7) := by
  have h := (claim7_success_path emptyDB 0 1 "login" "1.1.1.1" "ka" 23456
    (by decide) (by decide) (by decide) (by decide) (by decide)
    (by decide)).1
  rw [h]
  decide

theorem requestWritePhase_insert_fails (db : DB) (now : Int) (u : Nat)
    (p ip key : String) (rand : Nat) (userRows ipRows : List RateLimitRow)
    (e : IdempotencyRow) (hfind : findIdem db key = some e) :
    ((requestWritePhase db now u p ip key rand userRows ipRows).2.1 = 500 ∧
      (requestWritePhase db now u p ip key rand userRows ipRows).2.2
        = Body.reasonOnly "Internal Server Error" ∧
      (requestWritePhase db now u p ip key rand userRows ipRows).1.idempotency
        = db.idempotency) ∧
    (¬ 3 ≤ userRows.length → ¬ 8 ≤ ipRows.length →
      db.otps.any (activePred u p) = false →
      (requestWritePhase db now u p ip key rand userRows ipRows).1.otps
          = db.otps ++ [⟨db.next_otp_id, u, p, generateOTP rand,
            OtpStatus.active, 0, now, now + fiveMinutesMs⟩] ∧
      (requestWritePhase db now u p ip key rand userRows ipRows).1.rate_limits
          = db.rate_limits ++ [⟨db.next_rate_id, u, ip, now⟩]) := by
  have h2 : db.idempotency.find? (fun x => x.idempotency_key == key)
      = some e := hfind
  have hanyk : db.idempotency.any (fun x => x.idempotency_key == key)
      = true :=
    List.any_eq_true.mpr ⟨e, List.mem_of_find?_eq_some h2,
      @List.find?_some _ (fun x => x.idempotency_key == key) e
        db.idempotency h2⟩
  unfold requestWritePhase
  dsimp only
  split
  next h3 =>
    rw [insertIdem_of_findIdem_some hfind]
    exact ⟨⟨rfl, rfl, rfl⟩, fun h3n _ _ => absurd h3 h3n⟩
  next h3 =>
    split
    next h8 =>
      rw [insertIdem_of_findIdem_some hfind]
      exact ⟨⟨rfl, rfl, rfl⟩, fun _ h8n _ => absurd h8 h8n⟩
    next h8 =>
      split
      next hany =>
        rw [insertIdem_of_findIdem_some hfind]
        refine ⟨⟨rfl, rfl, rfl⟩, fun _ _ hfalse => ?_⟩
        rw [hany] at hfalse
        cases hfalse
      next hany =>
        split
        next db3 heq =>
          exfalso
          unfold insertIdem at heq
          dsimp only at heq
          rw [hanyk] at heq
          simp at heq
        next =>
          exact ⟨⟨rfl, rfl, rfl⟩, fun _ _ _ => ⟨rfl, rfl⟩⟩

/-- Claim C10: when the idempotency entry for the supplied key is 10
minutes old or older, the request is re-executed and the final
idempotency-cache insert hits the existing primary key, so the client
receives 500 Internal Server Error and the cache is unchanged; on the
success path this happens only after the transaction committed, so the new
OTP row and the rate-limit event are already durable although the client
got 500. -/
theorem claim10_stale_key_500 (db : DB) (now : Int) (u : Nat)
    (p ip key : String) (rand : Nat) (e : IdempotencyRow)
    (hval : (u == 0 || p == "" || key == "") = false)
    (hfind : findIdem db key = some e)
    (hstale : ¬ now - e.created_at < tenMinutesMs) :
    ((requestOtp db now u p ip key rand).2.1 = 500 ∧
      (requestOtp db now u p ip key rand).2.2
        = Body.reasonOnly "Internal Server Error" ∧
      (requestOtp db now u p ip key rand).1.idempotency = db.idempotency) ∧
    ((userWindowRows db now u).length < 3 →
      (ipWindowRows db now ip).length < 8 →
      db.otps.any (activePred u p) = false →
      (requestOtp db now u p ip key rand).1.otps
          = db.otps ++ [⟨db.next_otp_id, u, p, generateOTP rand,
            OtpStatus.active, 0, now, now + fiveMinutesMs⟩] ∧
      (requestOtp db now u p ip key rand).1.rate_limits
          = db.rate_limits ++ [⟨db.next_rate_id, u, ip, now⟩]) := by
  rw [requestOtp_of_stale hval hfind hstale]
  have h := requestWritePhase_insert_fails db now u p ip key rand
    (userWindowRows db now u) (ipWindowRows db now ip) e hfind
  exact ⟨h.1, fun h3 h8 hact => h.2 (not_le.mpr h3) (not_le.mpr h8) hact⟩

/-- Witness for C10: staleDB caches key kx at time 0; a request at time
600000 (exactly ten minutes later) gets 500, the cache is unchanged, and
the new OTP row and rate event are nevertheless committed. -/
theorem claim10_stale_key_500_witness :
    (requestOtp staleDB 600000 1 "login" "1.1.1.1" "kx" 0).2.1 = 500 ∧
    (requestOtp staleDB 600000 1 "login" "1.1.1.1" "kx" 0).1.idempotency
      = staleDB.idempotency ∧
    (requestOtp staleDB 600000 1 "login" "1.1.1.1" "kx" 0).1.otps
      = [⟨1, 1, "login", "100000", OtpStatus.active, 0, 600000, 900000⟩] := by
  have h := claim10_stale_key_500 staleDB 600000 1 "login" "1.1.1.1" "kx" 0
    ⟨"kx", 201, Body.created 9 300 2 7, 0⟩ (by decide) (by decide)
    (by decide)
  refine ⟨h.1.1, h.1.2.2, ?_⟩
  have h2 := (h.2 (by decide) (by decide) (by decide)).1
  rw [h2]
  decide

/-- Claim C8 (amended): POST /otp/request is the sequential composition of
an unlocked read phase (validation, idempotency lookup with replay, the two
rolling-window SELECTs) run before beginTransaction, and a write phase that
receives the window rows read earlier and performs the rate-limit decision,
the transaction with the active-OTP check and the two inserts, and the
cache insert.  Only the write phase touches state; the claimed single
atomic unit covering the rate-limit evaluation does not exist in the
code. -/
theorem claim8_read_write_split (db : DB) (now : Int) (u : Nat)
    (p ip key : String) (rand : Nat) :
    requestOtp db now u p ip key rand =
      (match requestReadPhase db now u p ip key with
        | ReadOutcome.invalid =>
            (db, 400, Body.reasonOnly "user_id, purpose, and Idempotency-Key are required.")
        | ReadOutcome.replay s b => (db, s, b)
        | ReadOutcome.proceed ur ir =>
            requestWritePhase db now u p ip key rand ur ir) := by
  unfold requestOtp requestReadPhase
  by_cases hval : (u == 0 || p == "" || key == "") = true
  · rw [if_pos hval, if_pos hval]
  · rw [if_neg hval, if_neg hval]
    cases hf : findIdem db key with
    | none => rfl
    | some e =>
        dsimp only
        by_cases hfr : now - e.created_at < tenMinutesMs
        · rw [if_pos hfr, if_pos hfr]
        · rw [if_neg hfr, if_neg hfr]

/-- Counterexample to C8 as stated: in raceDB user 1 already has two window
events at clock 100000.  Both requests (same user, different purposes and
keys) run their read phase against raceDB, each seeing a window count of 2;
then both write phases run in sequence and both answer 201.  Under the
claimed atomicity the outcome would have to match some serial order, but in
either serial order of the two full requests one answers 201 and the other
429.  The rate-limit evaluation is therefore not inside one atomic locked
unit with the writes. -/
theorem claim8_counterexample :
    requestReadPhase raceDB 100000 1 "login" "1.1.1.1" "k1"
      = ReadOutcome.proceed (userWindowRows raceDB 100000 1)
          (ipWindowRows raceDB 100000 "1.1.1.1") ∧
    requestReadPhase raceDB 100000 1 "reset" "2.2.2.2" "k2"
      = ReadOutcome.proceed (userWindowRows raceDB 100000 1)
          (ipWindowRows raceDB 100000 "2.2.2.2") ∧
    (userWindowRows raceDB 100000 1).length = 2 ∧
    (requestWritePhase raceDB 100000 1 "login" "1.1.1.1" "k1" 0
      (userWindowRows raceDB 100000 1)
      (ipWindowRows raceDB 100000 "1.1.1.1")).2.1 = 201 ∧
    (requestWritePhase
      (requestWritePhase raceDB 100000 1 "login" "1.1.1.1" "k1" 0
        (userWindowRows raceDB 100000 1)
        (ipWindowRows raceDB 100000 "1.1.1.1")).1
      100000 1 "reset" "2.2.2.2" "k2" 0
      (userWindowRows raceDB 100000 1)
      (ipWindowRows raceDB 100000 "2.2.2.2")).2.1 = 201 ∧
    (requestOtp raceDB 100000 1 "login" "1.1.1.1" "k1" 0).2.1 = 201 ∧
    (requestOtp (requestOtp raceDB 100000 1 "login" "1.1.1.1" "k1" 0).1
      100000 1 "reset" "2.2.2.2" "k2" 0).2.1 = 429 ∧
    (requestOtp raceDB 100000 1 "reset" "2.2.2.2" "k2" 0).2.1 = 201 ∧
    (requestOtp (requestOtp raceDB 100000 1 "reset" "2.2.2.2" "k2" 0).1
      100000 1 "login" "1.1.1.1" "k1" 0).2.1 = 429 := by
  decide

/-- Counterexample to C9 as stated: from the empty database, issue an OTP
for user 1 purpose login, verify it with the correct code (the row becomes
Used), then issue again with a new idempotency key.  The store now holds
two rows for the pair (1, login) — one Used, one Active — so more than one
record per pair exists; only the Active count stays at one. -/
theorem claim9_counterexample :
    ((requestOtp (verifyOtp (requestOtp emptyDB 0 1 "login" "1.1.1.1"
        "ka" 23456).1 1000 1 "login" "123456").1
        2000 1 "login" "1.1.1.1" "kb" 0).1.otps.countP
      (fun r => r.user_id == 1 && r.purpose == "login")) = 2 ∧
    ((requestOtp (verifyOtp (requestOtp emptyDB 0 1 "login" "1.1.1.1"
        "ka" 23456).1 1000 1 "login" "123456").1
        2000 1 "login" "1.1.1.1" "kb" 0).1.otps.countP
      (activePred 1 "login")) = 1 := by
  decide

/-- Claim C9 (amended): at most one Active record per (identity, purpose)
is maintained by both operations; records in other states may accumulate
for the same pair (see the counterexample), so only the Active count is
unique, not the total record count. -/
theorem claim9_amended_single_active (db : DB) (now now2 : Int)
    (u u2 : Nat) (p p2 ip key code : String) (rand : Nat)
    (h : atMostOneActive db) :
    atMostOneActive (requestOtp db now u p ip key rand).1 ∧
    atMostOneActive (verifyOtp db now2 u2 p2 code).1 :=
  ⟨atMostOneActive_requestOtp db now u p ip key rand h,
   atMostOneActive_verifyOtp db now2 u2 p2 code h⟩

/-- Witness for the amended C9 at the empty database. -/
theorem claim9_amended_single_active_witness :
    atMostOneActive (requestOtp emptyDB 0 1 "login" "1.1.1.1" "ka" 0).1 ∧
    atMostOneActive (verifyOtp emptyDB 0 1 "login" "123456").1 :=
  claim9_amended_single_active emptyDB 0 0 1 1 "login" "login" "1.1.1.1"
    "ka" "123456" 0 (fun _ _ => Nat.zero_le 1)

theorem requestOtp_conflict_general (db1 : DB) (now : Int) (u : Nat)
    (p ip2 key2 : String) (r2 : Nat)
    (hval2 : (u == 0 || p == "" || key2 == "") = false)
    (hf : findIdem db1 key2 = none)
    (h3 : ¬ 3 ≤ (userWindowRows db1 now u).length)
    (h8 : ¬ 8 ≤ (ipWindowRows db1 now ip2).length)
    (hany : db1.otps.any (activePred u p) = true) :
    requestOtp db1 now u p ip2 key2 r2 =
      ({ db1 with idempotency := db1.idempotency ++ [⟨key2, 409, Body.reasonOnly "An active OTP already exists.", now⟩] },
        409, Body.reasonOnly "An active OTP already exists.") := by
  rw [requestOtp_of_findIdem_none hval2 hf]
  exact requestWritePhase_conflict hf h3 h8 hany

/-- Claim C1: issuing from a state with no Active record for the pair
succeeds with 201 and leaves exactly one Active record; a second issuance
for the same pair (distinct fresh idempotency key, rate limits still clear)
answers 409 with reason An active OTP already exists and adds no OTP row —
and this stays true even in the racy interleaving in which the second
request performed its reads before the first committed, because the
active-OTP check runs inside the locked transaction.  Both resulting states
keep the at-most-one-Active-per-pair invariant. -/
theorem claim1_unique_active_issue (db : DB) (now : Int) (u : Nat)
    (p ip1 ip2 key1 key2 : String) (r1 r2 : Nat)
    (hval1 : (u == 0 || p == "" || key1 == "") = false)
    (hval2 : (u == 0 || p == "" || key2 == "") = false)
    (hk1 : findIdem db key1 = none)
    (hk2 : findIdem db key2 = none)
    (hkne : key1 ≠ key2)
    (hu3 : (userWindowRows db now u).length + 1 < 3)
    (hip1 : (ipWindowRows db now ip1).length < 8)
    (hip2 : (ipWindowRows db now ip2).length + 1 < 8)
    (hact : db.otps.any (activePred u p) = false)
    (hinv : atMostOneActive db) :
    (requestOtp db now u p ip1 key1 r1).2.1 = 201 ∧
    (requestOtp (requestOtp db now u p ip1 key1 r1).1
        now u p ip2 key2 r2).2
      = (409, Body.reasonOnly "An active OTP already exists.") ∧
    activeCount (requestOtp db now u p ip1 key1 r1).1 u p = 1 ∧
    (requestOtp (requestOtp db now u p ip1 key1 r1).1
        now u p ip2 key2 r2).1.otps
      = (requestOtp db now u p ip1 key1 r1).1.otps ∧
    (requestWritePhase (requestOtp db now u p ip1 key1 r1).1
        now u p ip2 key2 r2
        (userWindowRows db now u) (ipWindowRows db now ip2)).2.1 = 409 ∧
    atMostOneActive (requestOtp db now u p ip1 key1 r1).1 ∧
    atMostOneActive (requestOtp (requestOtp db now u p ip1 key1 r1).1
        now u p ip2 key2 r2).1 := by
  have h3 : ¬ 3 ≤ (userWindowRows db now u).length := by omega
  have h8 : ¬ 8 ≤ (ipWindowRows db now ip1).length := not_le.mpr hip1
  refine ⟨?_, ?_, ?_, ?_, ?_, ?_, ?_⟩
  · rw [requestOtp_of_findIdem_none hval1 hk1,
      requestWritePhase_success hk1 h3 h8 hact]
  · rw [requestOtp_of_findIdem_none hval1 hk1,
      requestWritePhase_success hk1 h3 h8 hact]
    dsimp only
    rw [requestOtp_conflict_general _ now u p ip2 key2 r2 hval2
      ?hfa ?h3a ?h8a ?hanya]
    case hfa =>
      unfold findIdem
      dsimp only
      rw [find?_append_of_none hk2,
        List.find?_cons_of_neg _ (by simp [hkne])]
      rfl
    case h3a =>
      unfold userWindowRows at hu3 ⊢
      dsimp only
      rw [List.filter_append, List.length_append]
      have hlb := List.length_filter_le
        (fun (r : RateLimitRow) => r.user_id == u && decide (now - fifteenMinutesMs ≤ r.created_at))
        ([⟨db.next_rate_id, u, ip1, now⟩] : List RateLimitRow)
      simp only [List.length_cons, List.length_nil] at hlb
      omega
    case h8a =>
      unfold ipWindowRows at hip2 ⊢
      dsimp only
      rw [List.filter_append, List.length_append]
      have hlb := List.length_filter_le
        (fun (r : RateLimitRow) => r.ip_address == ip2 && decide (now - fifteenMinutesMs ≤ r.created_at))
        ([⟨db.next_rate_id, u, ip1, now⟩] : List RateLimitRow)
      simp only [List.length_cons, List.length_nil] at hlb
      omega
    case hanya =>
      dsimp only
      rw [List.any_append]
      have hA : activePred u p ⟨db.next_otp_id, u, p, generateOTP r1,
          OtpStatus.active, 0, now, now + fiveMinutesMs⟩ = true := by
        simp [activePred]
      simp [hA]
  · rw [requestOtp_of_findIdem_none hval1 hk1,
      requestWritePhase_success hk1 h3 h8 hact]
    dsimp only
    unfold activeCount
    dsimp only
    rw [List.countP_append, countP_eq_zero_of_any_false hact]
    simp [activePred]
  · rw [requestOtp_of_findIdem_none hval1 hk1,
      requestWritePhase_success hk1 h3 h8 hact]
    dsimp only
    rw [requestOtp_conflict_general _ now u p ip2 key2 r2 hval2
      ?hfb ?h3b ?h8b ?hanyb]
    case hfb =>
      unfold findIdem
      dsimp only
      rw [find?_append_of_none hk2,
        List.find?_cons_of_neg _ (by simp [hkne])]
      rfl
    case h3b =>
      unfold userWindowRows at hu3 ⊢
      dsimp only
      rw [List.filter_append, List.length_append]
      have hlb := List.length_filter_le
        (fun (r : RateLimitRow) => r.user_id == u && decide (now - fifteenMinutesMs ≤ r.created_at))
        ([⟨db.next_rate_id, u, ip1, now⟩] : List RateLimitRow)
      simp only [List.length_cons, List.length_nil] at hlb
      omega
    case h8b =>
      unfold ipWindowRows at hip2 ⊢
      dsimp only
      rw [List.filter_append, List.length_append]
      have hlb := List.length_filter_le
        (fun (r : RateLimitRow) => r.ip_address == ip2 && decide (now - fifteenMinutesMs ≤ r.created_at))
        ([⟨db.next_rate_id, u, ip1, now⟩] : List RateLimitRow)
      simp only [List.length_cons, List.length_nil] at hlb
      omega
    case hanyb =>
      dsimp only
      rw [List.any_append]
      have hA : activePred u p ⟨db.next_otp_id, u, p, generateOTP r1,
          OtpStatus.active, 0, now, now + fiveMinutesMs⟩ = true := by
        simp [activePred]
      simp [hA]
  · rw [requestOtp_of_findIdem_none hval1 hk1,
      requestWritePhase_success hk1 h3 h8 hact]
    dsimp only
    rw [requestWritePhase_conflict ?hfc ?h3c ?h8c ?hanyc]
    case hfc =>
      unfold findIdem
      dsimp only
      rw [find?_append_of_none hk2,
        List.find?_cons_of_neg _ (by simp [hkne])]
      rfl
    case h3c => exact h3
    case h8c => exact not_le.mpr (by omega)
    case hanyc =>
      dsimp only
      rw [List.any_append]
      have hA : activePred u p ⟨db.next_otp_id, u, p, generateOTP r1,
          OtpStatus.active, 0, now, now + fiveMinutesMs⟩ = true := by
        simp [activePred]
      simp [hA]
  · exact atMostOneActive_requestOtp db now u p ip1 key1 r1 hinv
  · exact atMostOneActive_requestOtp _ now u p ip2 key2 r2
      (atMostOneActive_requestOtp db now u p ip1 key1 r1 hinv)

/-- Witness for C1: from the empty database, the first request answers 201
and a second request for the same pair answers 409. -/
theorem claim1_unique_active_issue_witness :
    (requestOtp emptyDB 0 1 "login" "1.1.1.1" "ka" 0).2.1 = 201 ∧
    (requestOtp (requestOtp emptyDB 0 1 "login" "1.1.1.1" "ka" 0).1
      0 1 "login" "2.2.2.2" "kb" 0).2.1 = 409 := by
  have h := claim1_unique_active_issue emptyDB 0 1 "login" "1.1.1.1"
    "2.2.2.2" "ka" "kb" 0 0 (by decide) (by decide) (by decide) (by decide)
    (by decide) (by decide) (by decide) (by decide) (by decide)
    (fun _ _ => Nat.zero_le 1)
  exact ⟨h.1, by rw [h.2.1]⟩
